import Mathlib

/-!
Verification of the llmspy-lumenfall plugin (image-generation adapter).

The development shallowly embeds the Python sources:
  * `llmspy_lumenfall/generator.py`  (extract_user_images, LumenfallImageGenerator)
  * `llmspy_lumenfall/__init__.py`   (the install-time closure copy of the generator)
  * `llmspy_lumenfall/models.py`     (catalog store: get_models / save_models / _parse_models)

JSON values are modelled by the inductive `Json`; Python dictionaries are
association lists with unique keys; machine-level effects (HTTP, filesystem,
the host `ctx` object) are modelled by explicit oracles and state.  Fallible
Python code is modelled in the `Except PyErr` monad, with one constructor per
Python exception class that the sources can raise.
-/

/-- JSON values (also standing for the Python objects obtained from
`json.loads`): null, booleans, integers, strings, arrays, objects.
Numbers are modelled as integers; no claim touches non-integral numerics. -/
inductive Json where
  | null : Json
  | bool (b : Bool) : Json
  | num (n : Int) : Json
  | str (s : String) : Json
  | arr (xs : List Json) : Json
  | obj (fields : List (String × Json)) : Json

namespace Json

/-- Python truthiness of a JSON value: `None`, `False`, `0`, `""`, `[]`, `{}`
are falsy, everything else truthy. -/
def truthy : Json → Bool
  | .null => false
  | .bool b => b
  | .num n => n != 0
  | .str s => s != ""
  | .arr xs => !xs.isEmpty
  | .obj fs => !fs.isEmpty

/-- Is the value usable as a Python dict key?  Parsed-JSON lists and dicts
are unhashable, everything else is hashable. -/
def hashable : Json → Bool
  | .arr _ => false
  | .obj _ => false
  | _ => true

/-- Python `==` on hashable parsed-JSON values (dict-key equality).  Python
treats `True == 1` and `False == 0` as equal (and they hash alike), so
booleans compare equal to the corresponding integers. -/
def keyEq : Json → Json → Bool
  | .null, .null => true
  | .bool a, .bool b => a == b
  | .num a, .num b => a == b
  | .str a, .str b => a == b
  | .bool a, .num b => (if a then (1 : Int) else 0) == b
  | .num a, .bool b => a == (if b then (1 : Int) else 0)
  | _, _ => false

end Json

/-- Python exceptions raised (directly or by builtins) in the embedded code. -/
inductive PyErr where
  /-- `ValueError(msg)` (also raised by `json.loads` via `JSONDecodeError`). -/
  | valueError (msg : String) : PyErr
  /-- `PermissionError(msg)`. -/
  | permissionError (msg : String) : PyErr
  /-- `RuntimeError(msg)`. -/
  | runtimeError (msg : String) : PyErr
  /-- `KeyError` from indexing a dict with a missing key. -/
  | keyError : PyErr
  /-- `TypeError` from operations on a value of the wrong type. -/
  | typeError : PyErr
  /-- `AttributeError` from calling `.get` / `.startswith` on the wrong type. -/
  | attributeError : PyErr
  /-- `binascii.Error` from `base64.b64decode` on malformed input. -/
  | binasciiError : PyErr
  /-- `json.JSONDecodeError` from `json.loads` on a non-JSON body. -/
  | jsonDecodeError : PyErr
  deriving Repr, DecidableEq

/-- `d.get(k)`: first value bound to `k` in an object (Python dicts have
unique keys, so first = only); `none` when the key is absent. -/
def pyGet (j : Json) (k : String) : Option Json :=
  match j with
  | .obj fs => (fs.find? (fun kv => kv.1 == k)).map (·.2)
  | _ => none

/-- `d.get(k, default)` on a value known to be a dict. -/
def pyGetD (j : Json) (k : String) (d : Json) : Json :=
  (pyGet j k).getD d

/-- `d.get(k)` when the receiver may not be a dict: Python raises
`AttributeError` on a non-dict receiver. -/
def pyGetE (j : Json) (k : String) : Except PyErr (Option Json) :=
  match j with
  | .obj _ => .ok (pyGet j k)
  | _ => .error .attributeError

/-- `as` begins with `bs` (character lists). -/
def listStarts : List Char → List Char → Bool
  | _, [] => true
  | [], _ :: _ => false
  | a :: as, b :: bs => a == b && listStarts as bs

/-- `needle` occurs as a contiguous run inside `hay` (Python `in` on
strings, `str.__contains__`). -/
def listHasRun (hay needle : List Char) : Bool :=
  match hay with
  | [] => needle.isEmpty
  | _ :: tl => listStarts hay needle || listHasRun tl needle

/-- Python substring test `needle in hay`. -/
def strIn (hay needle : String) : Bool :=
  listHasRun hay.data needle.data

/-- `s.startswith(pre)`. -/
def strStarts (s pre : String) : Bool :=
  listStarts s.data pre.data

/-- `s.endswith(suf)`. -/
def strEnds (s suf : String) : Bool :=
  listStarts s.data.reverse suf.data.reverse

/-- `s[:-n]`, dropping the last `n` characters. -/
def dropRightN (s : String) (n : Nat) : String :=
  String.mk (s.data.take (s.data.length - n))

/-- Split a character list at every occurrence of `sep`, keeping empties
(the list form of Python `s.split(sep)` for a one-character separator). -/
def splitOnCharList (sep : Char) : List Char → List (List Char)
  | [] => [[]]
  | c :: cs =>
    if c == sep then [] :: splitOnCharList sep cs
    else
      match splitOnCharList sep cs with
      | [] => [[c]]
      | p :: ps => (c :: p) :: ps

/-- Python `s.split(sep)` for a one-character separator. -/
def splitOnChar (s : String) (sep : Char) : List String :=
  (splitOnCharList sep s.data).map String.mk

/-- Replace every (non-overlapping, leftmost-first) occurrence of `needle`
by `repl`, on character lists.  The `fuel` argument makes the recursion
structural; every step consumes at least one character, so a fuel equal to
the input length never runs out. -/
def replaceAll (needle repl : List Char) : Nat → List Char → List Char
  | _, [] => []
  | 0, l => l
  | fuel + 1, c :: cs =>
    if listStarts (c :: cs) needle && !needle.isEmpty then
      repl ++ replaceAll needle repl fuel (List.drop (needle.length - 1) cs)
    else c :: replaceAll needle repl fuel cs

/-- Python `s.replace(old, new)` for a non-empty `old` (the only use in the
sources replaces the literal `"data:"`). -/
def strReplace (s needle repl : String) : String :=
  String.mk (replaceAll needle.data repl.data s.data.length s.data)

/-- Membership test `k in j`: key test on dicts, element test on lists,
substring test on strings, `TypeError` otherwise.  A list element equals
the string `k` under Python `==` exactly when it is the string `k`. -/
def pyContains (j : Json) (k : String) : Except PyErr Bool :=
  match j with
  | .obj fs => .ok (fs.any (fun kv => kv.1 == k))
  | .arr xs =>
    .ok (xs.any (fun x => match x with | .str s => s == k | _ => false))
  | .str s => .ok (strIn s k)
  | _ => .error .typeError

/-- Subscript `j[k]` with a string key: dict lookup (`KeyError` when absent),
`TypeError` on any other receiver. -/
def pyIndex (j : Json) (k : String) : Except PyErr Json :=
  match j with
  | .obj _ =>
    match pyGet j k with
    | some v => .ok v
    | none => .error .keyError
  | _ => .error .typeError

/-- Iterating a Python value: lists yield elements, strings yield 1-character
strings, dicts yield their keys, everything else raises `TypeError`. -/
def pyIter (j : Json) : Except PyErr (List Json) :=
  match j with
  | .arr xs => .ok xs
  | .str s => .ok (s.data.map (fun c => .str (String.singleton c)))
  | .obj fs => .ok (fs.map (fun kv => .str kv.1))
  | _ => .error .typeError

/-- `reversed(j)`: lists reversed, strings as reversed 1-character strings,
dicts as reversed keys, `TypeError` otherwise. -/
def pyReversed (j : Json) : Except PyErr (List Json) :=
  match j with
  | .arr xs => .ok xs.reverse
  | .str s => .ok ((s.data.reverse).map (fun c => .str (String.singleton c)))
  | .obj fs => .ok ((fs.reverse).map (fun kv => .str kv.1))
  | _ => .error .typeError

/-- The apostrophe character, used by Python `repr` to quote strings. -/
def quoteMark : String := String.singleton (Char.ofNat 39)

mutual

/-- Python `repr()` of a parsed-JSON value (escaping of quotes and
backslashes inside strings is elided; no embedded value in this
development contains them). -/
def pyRepr : Json → String
  | .null => "None"
  | .bool b => if b then "True" else "False"
  | .num n => toString n
  | .str s => quoteMark ++ s ++ quoteMark
  | .arr xs => "[" ++ String.intercalate ", " (pyReprList xs) ++ "]"
  | .obj fs => "\x7b" ++ String.intercalate ", " (pyReprFields fs) ++ "\x7d"

/-- `repr` of each list element. -/
def pyReprList : List Json → List String
  | [] => []
  | x :: xs => pyRepr x :: pyReprList xs

/-- `repr` of each dict entry, as Python prints `{'k': v}`. -/
def pyReprFields : List (String × Json) → List String
  | [] => []
  | (k, v) :: fs => (quoteMark ++ k ++ quoteMark ++ ": " ++ pyRepr v) :: pyReprFields fs

end

/-- Python `str()`: identity on strings, `repr`-style rendering otherwise
(as used by f-string interpolation). -/
def pyStr (j : Json) : String :=
  match j with
  | .str s => s
  | _ => pyRepr j

/-- Value of a base64-alphabet character. -/
def b64Val (c : Char) : Option Nat :=
  if c.toNat ≥ 65 && c.toNat ≤ 90 then some (c.toNat - 65)
  else if c.toNat ≥ 97 && c.toNat ≤ 122 then some (c.toNat - 71)
  else if c.toNat ≥ 48 && c.toNat ≤ 57 then some (c.toNat + 4)
  else if c == '+' then some 62
  else if c == '/' then some 63
  else none

/-- Decode base64 quads; `'='` padding is accepted in the final quad only,
any other leftover shape fails (Python raises `binascii.Error`). -/
def b64Quads : List Char → Option (List Nat)
  | [] => some []
  | [a, b, '=', '='] => do
    let x ← b64Val a
    let y ← b64Val b
    some [x * 4 + y / 16]
  | [a, b, c, '='] => do
    let x ← b64Val a
    let y ← b64Val b
    let z ← b64Val c
    some [x * 4 + y / 16, (y % 16) * 16 + z / 4]
  | a :: b :: c :: d :: rest => do
    let x ← b64Val a
    let y ← b64Val b
    let z ← b64Val c
    let w ← b64Val d
    let tl ← b64Quads rest
    some ([x * 4 + y / 16, (y % 16) * 16 + z / 4, (z % 4) * 64 + w] ++ tl)
  | _ => none

/-- `base64.b64decode` (non-validating): characters outside the base64
alphabet are discarded before decoding, and a malformed remainder fails. -/
def b64decode (s : String) : Option (List Nat) :=
  b64Quads (s.data.filter (fun c => (b64Val c).isSome || c == '='))

/-- `s.partition(sep)` for a one-character separator, keeping the pieces the
source uses: the part before the first `sep` and the part after it (empty
when `sep` does not occur). -/
def pyPartitionAt (s : String) (sep : Char) : String × String :=
  let pre := s.data.takeWhile (fun c => c != sep)
  let rest := s.data.drop pre.length
  (String.mk pre, String.mk (rest.drop 1))

/-- Parse one `data:` URI the way `extract_user_images` does:
`header, _, b64 = url.partition(",")`;
`media_type = header.split(";")[0].replace("data:", "")`. -/
def parseDataUri (url : String) : String × String :=
  let pr := pyPartitionAt url ','
  let mediaType := strReplace (String.mk (pr.1.data.takeWhile (fun c => c != ';'))) "data:" ""
  (mediaType, pr.2)

/-- Inner loop of `extract_user_images` over the content parts of the last
user message: parts that are not dicts raise `AttributeError`, parts whose
`type` is not `"image_url"` are skipped, and a part contributes exactly when
its `image_url.url` string starts with `"data:"`. -/
def collectParts : List Json → Except PyErr (List (String × String))
  | [] => .ok []
  | part :: rest => do
    let ty ← pyGetE part "type"
    match ty with
    | some (.str t) =>
      if t == "image_url" then do
        let iu := (← pyGetE part "image_url").getD (.obj [])
        let urlv ← (match iu with
          | .obj _ => pure (pyGetD iu "url" (.str ""))
          | _ => Except.error PyErr.attributeError)
        let url ← (match urlv with
          | .str u => pure u
          | _ => Except.error PyErr.attributeError)
        if strStarts url "data:" then do
          let tl ← collectParts rest
          pure (parseDataUri url :: tl)
        else collectParts rest
      else collectParts rest
    | _ => collectParts rest

/-- Outer loop of `extract_user_images` over `reversed(messages)`: skip
messages whose `role` is not `"user"`; at the first user message, break
(returning `[]`) when its `content` is not a list, otherwise collect the
image parts of that message. -/
def userImagesLoop : List Json → Except PyErr (List (String × String))
  | [] => .ok []
  | msg :: rest => do
    let role ← pyGetE msg "role"
    match role with
    | some (.str r) =>
      if r == "user" then
        match pyGet msg "content" with
        | some (.arr parts) => collectParts parts
        | _ => .ok []
      else userImagesLoop rest
    | _ => userImagesLoop rest

/-- `generator.extract_user_images(chat)`: image data of the last user
message, as `(media_type, base64_data)` pairs. -/
def extract_user_images (chat : Json) : Except PyErr (List (String × String)) := do
  let msgsO ← pyGetE chat "messages"
  let msgs ← pyReversed (msgsO.getD (.arr []))
  userImagesLoop msgs

/-- Result of the secondary `GET <image_url>` download, with
`contentType` standing for `res.headers.get("Content-Type", "")`
(aiohttp header lookup is case-insensitive). -/
structure DownloadResult where
  status : Nat
  body : List Nat
  contentType : String

/-- The host collaborators consumed by the generator: the `ctx` capability
object (`last_user_prompt`, `chat_to_aspect_ratio`, `save_image_to_cache`,
`to_file_info`) together with the `GeneratorBase` members it inherits
(`get_headers`, `default_content`) and the network download oracle.
`last_user_prompt` yields `none` for an absent prompt.
`save_image_to_cache` takes bytes, filename and file-info and returns the
relative cache URL (the discarded `_info` component is omitted). -/
structure Host where
  last_user_prompt : Json → Option String
  chat_to_aspect_ratio : Json → Option String
  get_headers : Json → List (String × String)
  default_content : Json
  save_image_to_cache : List Nat → String → Json → String
  to_file_info : Json → Json
  download : String → DownloadResult

/-- One field of an `aiohttp.FormData` multipart body: a plain field
(value as passed), or a file part with content bytes, filename and
content type. -/
inductive FormField where
  | text (name : String) (value : Json) : FormField
  | file (name : String) (content : List Nat) (filename : String)
      (contentType : String) : FormField

/-- The outbound HTTP request built by a `chat` call: either a JSON `POST`
(`session.post(url, headers=..., json=payload)`) or a multipart `POST`
(`session.post(url, headers=..., data=form)`). -/
inductive Request where
  | jsonPost (url : String) (headers : List (String × String))
      (payload : Json) : Request
  | multipartPost (url : String) (headers : List (String × String))
      (fields : List FormField) : Request

/-- `s.rstrip("/")`. -/
def stripTrailingSlashes (s : String) : String :=
  String.mk (s.data.reverse.dropWhile (fun c => c == '/')).reverse

/-- `LumenfallImageGenerator.__init__` in `generator.py`: strip trailing
slashes, then strip one endpoint suffix if present, giving `api_base`. -/
def generatorApiBase (api : String) : String :=
  let a := stripTrailingSlashes api
  if strEnds a "/images/generations" then dropRightN a "/images/generations".data.length
  else if strEnds a "/images/edits" then dropRightN a "/images/edits".data.length
  else a

/-- `LumenfallImageGenerator.__init__` in the `install()` closure of
`__init__.py`: ensure the api ends with `/images/generations`. -/
def installApi (api : String) : String :=
  if strEnds api "/images/generations" then api
  else stripTrailingSlashes api ++ "/images/generations"

/-- `ctx.chat_to_aspect_ratio(chat) or "1:1"`: Python `or` replaces a falsy
result (`None` or `""`) with the default. -/
def aspectRatioOf (host : Host) (chat : Json) : String :=
  match host.chat_to_aspect_ratio chat with
  | some s => if s == "" then "1:1" else s
  | none => "1:1"

/-- `prompt = self.ctx.last_user_prompt(chat); if not prompt: raise
ValueError(...)` — shared by both copies of `chat`. -/
def requirePrompt (host : Host) (chat : Json) : Except PyErr String :=
  match host.last_user_prompt chat with
  | some p =>
    if p == "" then .error (.valueError "No prompt found in chat messages")
    else .ok p
  | none => .error (.valueError "No prompt found in chat messages")

/-- `_chat_generate` (generator.py): JSON POST to `{api_base}/images/generations`
with payload `{model, prompt, n, response_format, aspect_ratio}`. -/
def chatGenerate (host : Host) (apiBase : String) (chat : Json) (model : Json)
    (prompt : String) (headers : List (String × String)) : Request :=
  let payload : Json := .obj
    [("model", model),
     ("prompt", .str prompt),
     ("n", pyGetD chat "n" (.num 1)),
     ("response_format", .str "b64_json"),
     ("aspect_ratio", .str (aspectRatioOf host chat))]
  .jsonPost (apiBase ++ "/images/generations") headers payload

/-- `media_type.split("/")[-1] if "/" in media_type else "png"`. -/
def mediaExt (mediaType : String) : String :=
  if strIn mediaType "/" then (splitOnChar mediaType '/').getLastD "png" else "png"

/-- `_chat_edit` (generator.py): multipart POST to `{api_base}/images/edits`
with fields `prompt, model, n, response_format`, a required `image` file
part decoded from the first data-URI, an optional `mask` file part decoded
from the second, and `Content-Type` popped from the headers so aiohttp can
set the multipart boundary. -/
def chatEdit (apiBase : String) (chat : Json) (model : Json)
    (prompt : String) (img1 : String × String) (restImgs : List (String × String))
    (headers : List (String × String)) : Except PyErr Request := do
  let baseFields : List FormField :=
    [.text "prompt" (.str prompt),
     .text "model" model,
     .text "n" (.str (pyStr (pyGetD chat "n" (.num 1)))),
     .text "response_format" (.str "b64_json")]
  let bytes1 ← (match b64decode img1.2 with
    | some bs => pure bs
    | none => Except.error PyErr.binasciiError)
  let imagePart : FormField :=
    .file "image" bytes1 ("image." ++ mediaExt img1.1) img1.1
  let maskFields ← (match restImgs with
    | [] => pure []
    | img2 :: _ => do
      let bytes2 ← (match b64decode img2.2 with
        | some bs => pure bs
        | none => Except.error PyErr.binasciiError)
      pure [FormField.file "mask" bytes2 ("mask." ++ mediaExt img2.1) img2.1])
  let headers2 := headers.filter
    (fun kv => !(kv.1 == "Content-Type" || kv.1 == "content-type"))
  .ok (.multipartPost (apiBase ++ "/images/edits") headers2
    (baseFields ++ [imagePart] ++ maskFields))

/-- `LumenfallImageGenerator.chat` (generator.py): check the prompt, extract
user images, then branch to the edit path (images present) or the generate
path (none).  The result is the outbound request description. -/
def generator_chat (host : Host) (apiBase : String) (chat : Json) :
    Except PyErr Request := do
  let model := (← pyGetE chat "model").getD (.str "")
  let prompt ← requirePrompt host chat
  let userImages ← extract_user_images chat
  let headers := host.get_headers chat
  match userImages with
  | img1 :: restImgs => chatEdit apiBase chat model prompt img1 restImgs headers
  | [] => .ok (chatGenerate host apiBase chat model prompt headers)

/-- `LumenfallImageGenerator.chat` as defined inside `install()` in
`__init__.py` (the copy the provider actually wires in): check the prompt,
then always build the JSON generation payload and POST it to `self.api`
(`{base}/images/generations`); it never inspects user images. -/
def install_chat (host : Host) (api : String) (chat : Json) :
    Except PyErr Request := do
  let model := (← pyGetE chat "model").getD (.str "")
  let prompt ← requirePrompt host chat
  let payload : Json := .obj
    [("model", model),
     ("prompt", .str prompt),
     ("n", pyGetD chat "n" (.num 1)),
     ("response_format", .str "b64_json"),
     ("aspect_ratio", .str (aspectRatioOf host chat))]
  let headers := host.get_headers chat
  .ok (.jsonPost api headers payload)

/-- An HTTP response as seen by `_handle_response`: status, body text, and
the result of `json.loads(text)` (`none` when the body is not valid JSON,
in which case `json.loads` raises `JSONDecodeError`, a `ValueError`). -/
structure HttpResponse where
  status : Nat
  text : String
  json : Option Json

/-- File-extension inference from the downloaded `Content-Type`:
`jpeg`/`jpg` → `jpg`, else `webp` → `webp`, else the `png` default. -/
def downloadExt (ct : String) : String :=
  if strIn ct "jpeg" || strIn ct "jpg" then "jpg"
  else if strIn ct "webp" then "webp"
  else "png"

/-- Body of the `for i, item in enumerate(data)` loop of `to_response`:
bytes from `base64.b64decode(item["b64_json"])` when that field is truthy,
else from a secondary GET on a truthy `item["url"]` (non-200 download is a
`RuntimeError`); an item with no bytes (or empty bytes) raises
`RuntimeError("No image data in response item {i}")`; obtained bytes are
handed to `ctx.save_image_to_cache` and wrapped as an `image_url` entry. -/
def toResponseLoop (host : Host) (chat : Json) : Nat → List Json → Except PyErr (List Json)
  | _, [] => .ok []
  | i, item :: rest => do
    let b64v ← pyGetE item "b64_json"
    let urlv ← pyGetE item "url"
    let fromUrl : Except PyErr (Option (List Nat) × String) :=
      match urlv with
      | some uv =>
        if uv.truthy then
          match uv with
          | .str u =>
            let res := host.download u
            if res.status == 200 then pure (some res.body, downloadExt res.contentType)
            else Except.error (PyErr.runtimeError
              ("Failed to download image: HTTP " ++ toString res.status))
          | _ => Except.error PyErr.typeError
        else pure (none, "png")
      | none => pure (none, "png")
    let step ← (match b64v with
      | some bv =>
        if bv.truthy then
          match bv with
          | .str s =>
            match b64decode s with
            | some bs => pure (some bs, "png")
            | none => Except.error PyErr.binasciiError
          | _ => Except.error PyErr.typeError
        else fromUrl
      | none => fromUrl)
    match step.1 with
    | some bs =>
      if !bs.isEmpty then do
        let mdl := (← pyGetE chat "model").getD (.str "image")
        let rel := host.save_image_to_cache bs
          (pyStr mdl ++ "-" ++ toString i ++ "." ++ step.2) (host.to_file_info chat)
        let entry : Json := .obj
          [("type", .str "image_url"), ("image_url", .obj [("url", .str rel)])]
        let tl ← toResponseLoop host chat (i + 1) rest
        pure (entry :: tl)
      else .error (.runtimeError ("No image data in response item " ++ toString i))
    | none => .error (.runtimeError ("No image data in response item " ++ toString i))

/-- The fatal message raised when the parsed body has no truthy `data`. -/
def noDataMsg : String :=
  "No " ++ quoteMark ++ "data" ++ quoteMark ++ " field in API response"

/-- `LumenfallImageGenerator.to_response` (identical in `generator.py` and in
the `install()` closure): a top-level `error` member is a `RuntimeError`
carrying `error.message` (default: the `str()` of the error value); a falsy
or missing `data` is the fatal no-data `RuntimeError`; otherwise every item
of `data` is decoded, cached, and collected, in order, into the host's
`{choices: [{message: {role, content, images}}]}` shape. -/
def to_response (host : Host) (response chat : Json) : Except PyErr Json := do
  let hasErr ← pyContains response "error"
  if hasErr then
    let errv ← pyIndex response "error"
    match errv with
    | .obj _ => .error (.runtimeError (pyStr (pyGetD errv "message" (.str (pyStr errv)))))
    | _ => .error .attributeError
  else do
    let dataO ← pyGetE response "data"
    let dataV := dataO.getD .null
    if !dataV.truthy then .error (.runtimeError noDataMsg)
    else do
      let items ← pyIter dataV
      let images ← toResponseLoop host chat 0 items
      .ok (.obj [("choices", .arr
        [.obj [("message", .obj
          [("role", .str "assistant"),
           ("content", host.default_content),
           ("images", .arr images)])]])])

/-- `LumenfallImageGenerator._handle_response` (generator.py; the same
status dispatch appears inline in the `install()` copy of `chat`): 401 →
`PermissionError` naming the key and its env var; 404 → `ValueError` naming
the model; other ≥ 400 → `RuntimeError` whose message comes from the parsed
`error.message` when the body is JSON of that shape, or the raw text when
the body is not JSON; 2xx → parse the body and delegate to `to_response`
(via the identity-shaped `ctx.log_json`). -/
def handle_response (host : Host) (resp : HttpResponse) (chat : Json) :
    Except PyErr Json := do
  let model := (← pyGetE chat "model").getD (.str "")
  if resp.status == 401 then
    .error (.permissionError
      "Unauthorized: Invalid API key. Check LUMENFALL_API_KEY environment variable.")
  else if resp.status == 404 then
    .error (.valueError ("Model not found: " ++ pyStr model))
  else if resp.status ≥ 400 then do
    let msg ← (match resp.json with
      | none => pure resp.text
      | some err =>
        match err with
        | .obj _ =>
          match pyGetD err "error" (.obj []) with
          | .obj efs => pure (pyStr (pyGetD (.obj efs) "message" (.str resp.text)))
          | _ => Except.error PyErr.attributeError
        | _ => Except.error PyErr.attributeError)
    .error (.runtimeError ("API error (" ++ toString resp.status ++ "): " ++ msg))
  else
    match resp.json with
    | some j => to_response host j chat
    | none => .error .jsonDecodeError

/-- A model-catalog mapping: a Python dict keyed by the raw `id` values. -/
abbrev Dict := List (Json × Json)

/-- Python dict insertion `d[k] = v`: unhashable keys raise `TypeError`; an
existing key (under Python `==`) keeps its position and original key object
and gets the new value; a fresh key is appended. -/
def dictInsert (d : Dict) (k v : Json) : Except PyErr Dict :=
  if !k.hashable then .error .typeError
  else if d.any (fun kv => Json.keyEq kv.1 k) then
    .ok (d.map (fun kv => if Json.keyEq kv.1 k then (kv.1, v) else kv))
  else .ok (d ++ [(k, v)])

/-- `models[k]` membership under Python key equality. -/
def dictHasKey (d : Dict) (k : Json) : Bool :=
  d.any (fun kv => Json.keyEq kv.1 k)

/-- The `for m in api_response.get("data", [])` loop of `_parse_models`:
`models[m["id"]] = {"id": m["id"], "name": m.get("name", m["id"])}`. -/
def parseModelsLoop : List Json → Dict → Except PyErr Dict
  | [], d => .ok d
  | m :: ms, d => do
    let idv ← pyIndex m "id"
    let namev := (pyGet m "name").getD idv
    let d2 ← dictInsert d idv (.obj [("id", idv), ("name", namev)])
    parseModelsLoop ms d2

/-- `models._parse_models(api_response)` (Lean cannot start a name with an
underscore): normalize the raw `{"data": [...]}` response into the
id → `{id, name}` dict. -/
def parse_models (apiResponse : Json) : Except PyErr Dict := do
  let dataO ← pyGetE apiResponse "data"
  let ms ← pyIter (dataO.getD (.arr []))
  parseModelsLoop ms []

/-- What reading the cached models file can yield: no file, an `OSError`
while opening/reading, contents that are not valid JSON
(`json.JSONDecodeError`), or a successfully parsed JSON document. -/
inductive FileRead where
  | absent : FileRead
  | unreadable : FileRead
  | invalidJson : FileRead
  | content (j : Json) : FileRead

/-- Modelled from the spec: the bundled static `models.json` data file is
shipped next to the sources but is not itself under the source tree; the
spec requires the static catalog to be non-empty and to contain the
baseline model id `mock-image`, and the test suite additionally looks for
the flagship ids `flux.2-pro`, `dall-e-3` and `gpt-image-1`. -/
def staticModels : Json :=
  .obj [("data", .arr
    [.obj [("id", .str "mock-image"), ("name", .str "Mock Image")],
     .obj [("id", .str "flux.2-pro"), ("name", .str "FLUX 2 Pro")],
     .obj [("id", .str "dall-e-3"), ("name", .str "DALL-E 3")],
     .obj [("id", .str "gpt-image-1"), ("name", .str "GPT Image 1")]])]

/-- `models.get_models()`: parse the writable cache file when a cache path
is configured and the file exists and parses (`JSONDecodeError`/`OSError`
are swallowed as a cache miss), else parse the bundled static file. -/
def get_models (cachePathSet : Bool) (cacheFile : FileRead) : Except PyErr Dict :=
  if cachePathSet then
    match cacheFile with
    | .content j => parse_models j
    | _ => parse_models staticModels
  else parse_models staticModels

/-- `models.save_models(api_response)`: overwrite the cache file with the
raw response when a cache path is configured, else no-op. -/
def save_models (cachePathSet : Bool) (cacheFile : FileRead) (apiResponse : Json) :
    FileRead :=
  if cachePathSet then .content apiResponse else cacheFile

/-- A well-formed catalog element: a JSON object carrying an `id` that is a
legal dict key (any non-container JSON value). -/
def wfModelItem (m : Json) : Bool :=
  match m with
  | .obj _ =>
    match pyGet m "id" with
    | some idv => idv.hashable
    | none => false
  | _ => false

/-- The `id` field of a catalog element (well-formed elements always have
one). -/
def idOf (m : Json) : Json :=
  (pyGet m "id").getD .null

/-- The catalog entry the specification promises for one element: keyed by
the element's `id`, with `name` equal to the element's `name` field when
present and its `id` otherwise. -/
def claimedEntry (m : Json) : Json × Json :=
  (idOf m, .obj [("id", idOf m), ("name", (pyGet m "name").getD (idOf m))])

/-- The `id` fields of the elements are pairwise distinct under Python key
equality. -/
def distinctIds : List Json → Bool
  | [] => true
  | m :: ms => ms.all (fun m2 => !Json.keyEq (idOf m) (idOf m2)) && distinctIds ms

theorem exceptBind_ok {α β : Type} (a : α) (f : α → Except PyErr β) :
    (Except.ok a >>= f) = f a := rfl

theorem exceptBind_error {α β : Type} (e : PyErr) (f : α → Except PyErr β) :
    ((Except.error e : Except PyErr α) >>= f) = .error e := rfl

theorem dictHasKey_append (d1 d2 : Dict) (k : Json) :
    dictHasKey (d1 ++ d2) k = (dictHasKey d1 k || dictHasKey d2 k) := by
  simp [dictHasKey, List.any_append]

theorem keyEq_refl (k : Json) (h : k.hashable = true) : Json.keyEq k k = true := by
  cases k with
  | null => rfl
  | bool b => simp [Json.keyEq]
  | num n => simp [Json.keyEq]
  | str s => simp [Json.keyEq]
  | arr xs => simp [Json.hashable] at h
  | obj fs => simp [Json.hashable] at h

theorem dictInsert_hasKey (d : Dict) (k v : Json) (hk : k.hashable = true) :
    ∃ d2, dictInsert d k v = .ok d2 ∧ dictHasKey d2 k = true ∧
      ∀ k2, dictHasKey d k2 = true → dictHasKey d2 k2 = true := by
  by_cases hex : d.any (fun kv => Json.keyEq kv.1 k) = true
  · refine ⟨d.map (fun kv => if Json.keyEq kv.1 k then (kv.1, v) else kv),
      by simp [dictInsert, hk, hex], ?_, ?_⟩
    · have : ∀ kv : Json × Json,
          ((fun kv2 => Json.keyEq kv2.1 k)
            ((fun kv2 => if Json.keyEq kv2.1 k then (kv2.1, v) else kv2) kv))
          = Json.keyEq kv.1 k := by
        intro kv
        by_cases hkv : Json.keyEq kv.1 k = true <;> simp [hkv]
      simpa [dictHasKey, List.any_map, Function.comp, this] using hex
    · intro k2 h2
      have : ∀ kv : Json × Json,
          ((fun kv2 => Json.keyEq kv2.1 k2)
            ((fun kv2 => if Json.keyEq kv2.1 k then (kv2.1, v) else kv2) kv))
          = Json.keyEq kv.1 k2 := by
        intro kv
        by_cases hkv : Json.keyEq kv.1 k = true <;> simp [hkv]
      simpa [dictHasKey, List.any_map, Function.comp, this] using h2
  · refine ⟨d ++ [(k, v)], by simp [dictInsert, hk, hex], ?_, ?_⟩
    · simp [dictHasKey, keyEq_refl k hk]
    · intro k2 h2
      simp [dictHasKey] at h2 ⊢
      exact Or.inl h2

theorem parseModelsLoop_keys (ms : List Json) (d : Dict)
    (hwf : ∀ m ∈ ms, wfModelItem m = true) :
    ∃ d2, parseModelsLoop ms d = .ok d2 ∧
      (∀ k, dictHasKey d k = true → dictHasKey d2 k = true) ∧
      (∀ m ∈ ms, dictHasKey d2 (idOf m) = true) := by
  induction ms generalizing d with
  | nil => exact ⟨d, rfl, fun _ h => h, by simp⟩
  | cons m ms ih =>
    have hm : wfModelItem m = true := hwf m (by simp)
    match m, hm with
    | .obj mfs, hm =>
      match hid : pyGet (.obj mfs) "id" with
      | none => simp [wfModelItem, hid] at hm
      | some idv =>
        have hhash : idv.hashable = true := by
          simpa [wfModelItem, hid] using hm
        obtain ⟨d1, hins, hkey1, hmono1⟩ :=
          dictInsert_hasKey d idv
            (.obj [("id", idv), ("name", (pyGet (.obj mfs) "name").getD idv)]) hhash
        obtain ⟨d2, hloop, hmono2, hall2⟩ :=
          ih d1 (fun m2 hmem => hwf m2 (by simp [hmem]))
        refine ⟨d2, ?_, ?_, ?_⟩
        · simp [parseModelsLoop, pyIndex, hid, hins, hloop, exceptBind_ok]
        · exact fun k hk => hmono2 k (hmono1 k hk)
        · intro m2 hmem
          rcases List.mem_cons.mp hmem with h1 | h2
          · subst h1
            exact hmono2 _ (by simpa [idOf, hid] using hkey1)
          · exact hall2 m2 h2

theorem parseModelsLoop_map (ms : List Json) (d : Dict)
    (hwf : ∀ m ∈ ms, wfModelItem m = true)
    (hdist : distinctIds ms = true)
    (hfresh : ∀ m ∈ ms, dictHasKey d (idOf m) = false) :
    parseModelsLoop ms d = .ok (d ++ ms.map claimedEntry) := by
  induction ms generalizing d with
  | nil => simp [parseModelsLoop]
  | cons m ms ih =>
    have hm : wfModelItem m = true := hwf m (by simp)
    match m, hm with
    | .obj mfs, hm =>
      match hid : pyGet (.obj mfs) "id" with
      | none => simp [wfModelItem, hid] at hm
      | some idv =>
        have hhash : idv.hashable = true := by
          simpa [wfModelItem, hid] using hm
        have hfre : dictHasKey d idv = false := by
          simpa [idOf, hid] using hfresh (.obj mfs) (by simp)
        have hins : dictInsert d idv
            (.obj [("id", idv), ("name", (pyGet (.obj mfs) "name").getD idv)]) =
            .ok (d ++ [(idv, .obj [("id", idv), ("name", (pyGet (.obj mfs) "name").getD idv)])]) := by
          simp [dictInsert, hhash, show d.any (fun kv => Json.keyEq kv.1 idv) = false from hfre]
        have hdist2 : distinctIds ms = true := by
          simp [distinctIds] at hdist
          exact hdist.2
        have hsep : ∀ m2 ∈ ms, Json.keyEq idv (idOf m2) = false := by
          intro m2 hmem
          simp [distinctIds] at hdist
          simpa [idOf, hid] using hdist.1 m2 hmem
        have hfresh2 : ∀ m2 ∈ ms,
            dictHasKey (d ++ [(idv, .obj [("id", idv), ("name", (pyGet (.obj mfs) "name").getD idv)])])
              (idOf m2) = false := by
          intro m2 hmem
          rw [dictHasKey_append, hfresh m2 (List.mem_cons_of_mem _ hmem)]
          simp [dictHasKey, hsep m2 hmem]
        have := ih (d ++ [(idv, .obj [("id", idv), ("name", (pyGet (.obj mfs) "name").getD idv)])])
          (fun m2 hmem => hwf m2 (by simp [hmem])) hdist2 hfresh2
        simp [parseModelsLoop, pyIndex, hid, hins, this, claimedEntry, idOf, exceptBind_ok]

/-- The two-element `data` array used against C7 as stated: both elements
carry the id `"a"`, the first with a `name` and the second without. -/
def c7DupItems : List Json :=
  [.obj [("id", .str "a"), ("name", .str "X")], .obj [("id", .str "a")]]

/-- C7, counterexample: on a response whose two `data` elements share the id
`"a"`, `_parse_models` returns a single entry — not "exactly one entry per
element" — and that entry's name is `"a"` although the first element's
`name` field is present with value `"X"`. -/
theorem c7_counterexample :
    parse_models (.obj [("data", .arr c7DupItems)]) =
      .ok [(.str "a", .obj [("id", .str "a"), ("name", .str "a")])] ∧
    c7DupItems.length = 2 :=
  ⟨rfl, rfl⟩

/-- **C7** (amended): for every raw API response object whose `data`
elements are objects with hashable, pairwise-distinct `id` fields,
`_parse_models` returns the mapping with exactly one entry per element, in
input order, keyed by that element's id, with name equal to the element's
`name` field when present and its id otherwise; and an empty or missing
`data` yields the empty mapping.  (The original claim, quantified over all
responses, fails when two elements share an id.) -/
theorem c7_parse_models_normalization (r : Json) (rfs : List (String × Json))
    (hr : r = .obj rfs) :
    ((pyGet r "data" = none ∨ pyGet r "data" = some (.arr [])) →
      parse_models r = .ok []) ∧
    (∀ ms, pyGet r "data" = some (.arr ms) →
      (∀ m ∈ ms, wfModelItem m = true) → distinctIds ms = true →
      parse_models r = .ok (ms.map claimedEntry)) := by
  subst hr
  constructor
  · rintro (h | h) <;>
      simp [parse_models, pyGetE, h, exceptBind_ok, pyIter, parseModelsLoop]
  · intro ms h hwf hdist
    have hmap := parseModelsLoop_map ms [] hwf hdist (fun m _ => rfl)
    simp [parse_models, pyGetE, h, exceptBind_ok, pyIter, hmap]

/-- C7, witness: the amended theorem evaluated on a concrete two-element
catalog with distinct ids, one element with a `name` and one without. -/
theorem c7_witness :
    parse_models (.obj [("data", .arr
        [.obj [("id", .str "flux.2-pro"), ("name", .str "FLUX 2 Pro")],
         .obj [("id", .str "mock-image")]])]) =
      .ok [(.str "flux.2-pro", .obj [("id", .str "flux.2-pro"), ("name", .str "FLUX 2 Pro")]),
           (.str "mock-image", .obj [("id", .str "mock-image"), ("name", .str "mock-image")])] :=
  (c7_parse_models_normalization _ _ rfl).2
    [.obj [("id", .str "flux.2-pro"), ("name", .str "FLUX 2 Pro")],
     .obj [("id", .str "mock-image")]]
    rfl (by decide) (by decide)

/-- The normalized catalog obtained from the (spec-modelled) bundled static
file. -/
def staticCatalog : Dict :=
  [(.str "mock-image", .obj [("id", .str "mock-image"), ("name", .str "Mock Image")]),
   (.str "flux.2-pro", .obj [("id", .str "flux.2-pro"), ("name", .str "FLUX 2 Pro")]),
   (.str "dall-e-3", .obj [("id", .str "dall-e-3"), ("name", .str "DALL-E 3")]),
   (.str "gpt-image-1", .obj [("id", .str "gpt-image-1"), ("name", .str "GPT Image 1")])]

/-- **C8**: `get_models` parses the writable cache file exactly when a cache
path is configured and the file exists and holds valid JSON; when the cache
path is unset, the file is absent or unreadable, or its contents fail to
parse as JSON, it parses the bundled static file instead — and since the
static catalog parses, a malformed cache file never makes `get_models`
raise. -/
theorem c8_get_models_cache_policy (cp : Bool) (cf : FileRead) :
    (∀ j, cp = true → cf = .content j → get_models cp cf = parse_models j) ∧
    ((cp = false ∨ cf = .absent ∨ cf = .unreadable ∨ cf = .invalidJson) →
      get_models cp cf = parse_models staticModels) ∧
    parse_models staticModels = .ok staticCatalog := by
  refine ⟨?_, ?_, rfl⟩
  · intro j hcp hcf
    subst hcp; subst hcf
    rfl
  · rintro (h | h | h | h)
    · subst h; rfl
    · subst h; cases cp <;> rfl
    · subst h; cases cp <;> rfl
    · subst h; cases cp <;> rfl

/-- C8, witness: a configured cache path whose file holds malformed JSON
falls back to the static catalog and returns it without raising. -/
theorem c8_witness :
    get_models true .invalidJson = parse_models staticModels ∧
    get_models true .invalidJson = .ok staticCatalog := by
  have h := c8_get_models_cache_policy true .invalidJson
  have h1 := h.2.1 (Or.inr (Or.inr (Or.inr rfl)))
  exact ⟨h1, h1.trans h.2.2⟩

/-- C9, counterexample: with a cache directory configured, saving the
response `{"data": [{}]}` and loading it back raises `KeyError` (the loop
indexes `m["id"]` on an element without an `id`), so the round trip yields
no mapping at all — even though no id "appears" in that `data` array. -/
theorem c9_counterexample :
    get_models true (save_models true .absent (.obj [("data", .arr [.obj []])])) =
      .error .keyError :=
  rfl

/-- **C9** (amended): for every raw API response object whose `data` field,
when present, is an array of objects each carrying a hashable `id`, saving
the response with a cache directory configured and then loading yields a
mapping containing every id appearing in the saved `data` array.  (The
original claim, quantified over every raw response, fails when an element
lacks an `id`.) -/
theorem c9_save_get_roundtrip (resp : Json) (rfs : List (String × Json))
    (hresp : resp = .obj rfs) (ms : List Json) (cf : FileRead)
    (hdata : pyGet resp "data" = some (.arr ms) ∨
      (pyGet resp "data" = none ∧ ms = []))
    (hwf : ∀ m ∈ ms, wfModelItem m = true) :
    ∃ d, get_models true (save_models true cf resp) = .ok d ∧
      ∀ m ∈ ms, dictHasKey d (idOf m) = true := by
  subst hresp
  rcases hdata with h | ⟨h, hms⟩
  · obtain ⟨d2, hloop, _, hall⟩ := parseModelsLoop_keys ms [] hwf
    refine ⟨d2, ?_, hall⟩
    simp [get_models, save_models, parse_models, pyGetE, h, exceptBind_ok, pyIter, hloop]
  · subst hms
    refine ⟨[], ?_, by simp⟩
    simp [get_models, save_models, parse_models, pyGetE, h, exceptBind_ok, pyIter,
      parseModelsLoop]

/-- C9, witness: the round trip evaluated on a concrete one-element catalog
response. -/
theorem c9_witness :
    ∃ d, get_models true (save_models true .absent
        (.obj [("data", .arr [.obj [("id", .str "mock-image"), ("name", .str "Mock Image")]])])) =
        .ok d ∧
      ∀ m ∈ [Json.obj [("id", .str "mock-image"), ("name", .str "Mock Image")]],
        dictHasKey d (idOf m) = true :=
  c9_save_get_roundtrip _ _ rfl _ .absent (Or.inl rfl) (by decide)

/-- A concrete host fixture: fixed headers (with a pre-set `Content-Type`),
a fixed prompt answer, no aspect-ratio hint, and a cache writer that maps a
filename to a `/~cache/` relative URL. -/
def mkHost (prompt : Option String) : Host where
  last_user_prompt := fun _ => prompt
  chat_to_aspect_ratio := fun _ => none
  get_headers := fun _ =>
    [("Authorization", "Bearer test-key"), ("Content-Type", "application/json")]
  default_content := .str ""
  save_image_to_cache := fun _ fn _ => "/~cache/" ++ fn
  to_file_info := fun _ => .obj []
  download := fun u =>
    if u == "https://img.example/one" then ⟨200, [255, 216, 255], "image/jpeg"⟩
    else ⟨404, [], ""⟩

/-- **C2**: whenever the host's `last_user_prompt` comes back empty or
absent, both copies of `chat` (the routing one in `generator.py` and the
install-closure one actually wired in) fail with the precondition
`ValueError` — the request-construction stage produces no request, so no
HTTP call is issued on either path. -/
theorem c2_missing_prompt_precondition (host : Host) (apiBase api : String)
    (chat : Json) (cfs : List (String × Json)) (hchat : chat = .obj cfs)
    (hprompt : host.last_user_prompt chat = none ∨
      host.last_user_prompt chat = some "") :
    generator_chat host apiBase chat =
      .error (.valueError "No prompt found in chat messages") ∧
    install_chat host api chat =
      .error (.valueError "No prompt found in chat messages") := by
  subst hchat
  have hreq : requirePrompt host (.obj cfs) =
      .error (.valueError "No prompt found in chat messages") := by
    rcases hprompt with h | h <;> simp [requirePrompt, h]
  constructor <;>
    simp [generator_chat, install_chat, pyGetE, exceptBind_ok, hreq, exceptBind_error]

/-- C2, witness: a host returning no prompt makes both chat entry points
fail on a concrete empty chat. -/
theorem c2_witness :
    generator_chat (mkHost none) "https://x/v1" (.obj []) =
      .error (.valueError "No prompt found in chat messages") ∧
    install_chat (mkHost none) (installApi "https://x/v1") (.obj []) =
      .error (.valueError "No prompt found in chat messages") :=
  c2_missing_prompt_precondition (mkHost none) "https://x/v1"
    (installApi "https://x/v1") (.obj []) [] rfl (Or.inl rfl)

/-- A chat whose last (only) user message supplies one data-URI image. -/
def c1Chat : Json :=
  .obj [("model", .str "mock-image"),
        ("messages", .arr [.obj [("role", .str "user"), ("content", .arr
          [.obj [("type", .str "text"), ("text", .str "add a hat")],
           .obj [("type", .str "image_url"),
                 ("image_url", .obj [("url", .str "data:image/png;base64,AAAA")])]])]])]

/-- C1, divergence witness: on a chat that supplies one data-URI image, the
dead `generator.py` copy of `chat` does build the claimed multipart POST to
`{base}/images/edits` (fields `prompt, model, n, response_format`, decoded
`image` file part, `Content-Type` popped), but the `install()` closure copy
— the one `LumenfallProvider` actually wires in through
`_generator_factory` — ignores the extracted images and sends a JSON POST
to `{base}/images/generations` instead. -/
theorem c1_install_chat_ignores_images :
    extract_user_images c1Chat = .ok [("image/png", "AAAA")] ∧
    install_chat (mkHost (some "add a hat"))
        (installApi "https://api.lumenfall.ai/openai/v1") c1Chat =
      .ok (.jsonPost "https://api.lumenfall.ai/openai/v1/images/generations"
        [("Authorization", "Bearer test-key"), ("Content-Type", "application/json")]
        (.obj [("model", .str "mock-image"), ("prompt", .str "add a hat"),
               ("n", .num 1), ("response_format", .str "b64_json"),
               ("aspect_ratio", .str "1:1")])) ∧
    generator_chat (mkHost (some "add a hat"))
        (generatorApiBase "https://api.lumenfall.ai/openai/v1") c1Chat =
      .ok (.multipartPost "https://api.lumenfall.ai/openai/v1/images/edits"
        [("Authorization", "Bearer test-key")]
        [.text "prompt" (.str "add a hat"), .text "model" (.str "mock-image"),
         .text "n" (.str "1"), .text "response_format" (.str "b64_json"),
         .file "image" [0, 0, 0] "image.png" "image/png"]) :=
  ⟨rfl, rfl, rfl⟩

/-- What `extract_user_images` computes on the last user message alone:
nothing when its `content` is not a list, else the collected image parts. -/
def lastUserImagesSpec (m : Json) : Except PyErr (List (String × String)) :=
  match pyGet m "content" with
  | some (.arr parts) => collectParts parts
  | _ => .ok []

/-- A content part on which the part loop cannot raise: an object whose
`image_url`, when it is to be read, is an object whose `url` is a string. -/
def wfPart (p : Json) : Bool :=
  match p with
  | .obj _ =>
    match pyGet p "type" with
    | some (.str t) =>
      if t == "image_url" then
        match pyGet p "image_url" with
        | none => true
        | some (.obj iufs) =>
          match pyGet (.obj iufs) "url" with
          | none => true
          | some (.str _) => true
          | some _ => false
        | some _ => false
      else true
    | _ => true
  | _ => false

/-- The claim's per-part contribution: only parts of type `image_url` whose
url starts with `data:` contribute, each as its (media-type, base64-payload)
pair. -/
def claimedImagePart (p : Json) : Option (String × String) :=
  match pyGet p "type" with
  | some (.str t) =>
    if t == "image_url" then
      match pyGet ((pyGet p "image_url").getD (.obj [])) "url" with
      | some (.str u) =>
        if strStarts u "data:" then some (parseDataUri u) else none
      | _ => none
    else none
  | _ => none

theorem collectParts_filterMap (parts : List Json)
    (h : ∀ p ∈ parts, wfPart p = true) :
    collectParts parts = .ok (parts.filterMap claimedImagePart) := by
  induction parts with
  | nil => rfl
  | cons p ps ih =>
    have hp : wfPart p = true := h p (by simp)
    have hps := ih (fun q hq => h q (by simp [hq]))
    cases p with
    | null => simp [wfPart] at hp
    | bool b => simp [wfPart] at hp
    | num n => simp [wfPart] at hp
    | str s => simp [wfPart] at hp
    | arr xs => simp [wfPart] at hp
    | obj pfs =>
      cases hty : pyGet (.obj pfs) "type" with
      | none =>
        simp [collectParts, pyGetE, hty, exceptBind_ok, hps, claimedImagePart]
      | some tv =>
        cases tv with
        | str t =>
          by_cases ht : t = "image_url"
          · subst ht
            cases hiu : pyGet (.obj pfs) "image_url" with
            | none =>
              simp [collectParts, pyGetE, hty, hiu, exceptBind_ok, hps,
                claimedImagePart, pyGetD,
                show pyGet (Json.obj []) "url" = none from rfl,
                show strStarts "" "data:" = false from rfl]
            | some iuv =>
              cases iuv with
              | obj iufs =>
                cases hurl : pyGet (.obj iufs) "url" with
                | none =>
                  simp [collectParts, pyGetE, hty, hiu, hurl, exceptBind_ok, hps,
                    claimedImagePart, pyGetD,
                    show strStarts "" "data:" = false from rfl]
                | some uv =>
                  cases uv with
                  | str u =>
                    by_cases hu : strStarts u "data:" = true
                    · simp [collectParts, pyGetE, hty, hiu, hurl, exceptBind_ok,
                        hps, claimedImagePart, pyGetD, hu]
                    · simp [collectParts, pyGetE, hty, hiu, hurl, exceptBind_ok,
                        hps, claimedImagePart, pyGetD, hu]
                  | null => simp [wfPart, hty, hiu, hurl] at hp
                  | bool b => simp [wfPart, hty, hiu, hurl] at hp
                  | num n => simp [wfPart, hty, hiu, hurl] at hp
                  | arr xs => simp [wfPart, hty, hiu, hurl] at hp
                  | obj fs2 => simp [wfPart, hty, hiu, hurl] at hp
              | null => simp [wfPart, hty, hiu] at hp
              | bool b => simp [wfPart, hty, hiu] at hp
              | num n => simp [wfPart, hty, hiu] at hp
              | str s2 => simp [wfPart, hty, hiu] at hp
              | arr xs => simp [wfPart, hty, hiu] at hp
          · simp [collectParts, pyGetE, hty, ht, exceptBind_ok, hps, claimedImagePart]
        | null =>
          simp [collectParts, pyGetE, hty, exceptBind_ok, hps, claimedImagePart]
        | bool b =>
          simp [collectParts, pyGetE, hty, exceptBind_ok, hps, claimedImagePart]
        | num n =>
          simp [collectParts, pyGetE, hty, exceptBind_ok, hps, claimedImagePart]
        | arr xs =>
          simp [collectParts, pyGetE, hty, exceptBind_ok, hps, claimedImagePart]
        | obj fs2 =>
          simp [collectParts, pyGetE, hty, exceptBind_ok, hps, claimedImagePart]

theorem userImagesLoop_skip (l rest : List Json)
    (h : ∀ x ∈ l, (∃ xfs, x = .obj xfs) ∧ pyGet x "role" ≠ some (.str "user")) :
    userImagesLoop (l ++ rest) = userImagesLoop rest := by
  induction l with
  | nil => rfl
  | cons x xs ih =>
    obtain ⟨⟨xfs, hx⟩, hrole⟩ := h x (by simp)
    subst hx
    have hrest := ih (fun y hy => h y (by simp [hy]))
    cases hr : pyGet (.obj xfs) "role" with
    | none => simp [userImagesLoop, pyGetE, hr, exceptBind_ok, hrest]
    | some rv =>
      cases rv with
      | str r =>
        have hner : ¬ r = "user" := by
          rintro rfl
          exact hrole (by rw [hr])
        simp [userImagesLoop, pyGetE, hr, exceptBind_ok, hner, hrest]
      | null => simp [userImagesLoop, pyGetE, hr, exceptBind_ok, hrest]
      | bool b => simp [userImagesLoop, pyGetE, hr, exceptBind_ok, hrest]
      | num n => simp [userImagesLoop, pyGetE, hr, exceptBind_ok, hrest]
      | arr ys => simp [userImagesLoop, pyGetE, hr, exceptBind_ok, hrest]
      | obj fs2 => simp [userImagesLoop, pyGetE, hr, exceptBind_ok, hrest]

/-- **C10**: `extract_user_images` takes its images from the most recent
`user`-role message only — messages after it (which must merely be
well-formed enough to read) are skipped and messages before it are never
reached; when that message's `content` is not a list the result is `[]`
(whatever earlier messages carry); within that message exactly the parts of
type `image_url` whose url starts with `data:` contribute, in part order, as
(media-type, base64-payload) pairs; and a last user message with
plain-string content therefore makes `chat` (generator.py) build the
generate-path JSON POST to `{base}/images/generations` whenever a prompt is
available. -/
theorem c10_extract_user_images_last_user (chat : Json) (cfs : List (String × Json))
    (hchat : chat = .obj cfs)
    (pre post : List Json) (m : Json) (mfs : List (String × Json))
    (hmsgs : pyGet chat "messages" = some (.arr (pre ++ m :: post)))
    (hm : m = .obj mfs)
    (hrole : pyGet m "role" = some (.str "user"))
    (hpost : ∀ x ∈ post, (∃ xfs, x = .obj xfs) ∧ pyGet x "role" ≠ some (.str "user")) :
    extract_user_images chat = lastUserImagesSpec m ∧
    ((∀ parts, pyGet m "content" ≠ some (.arr parts)) →
      extract_user_images chat = .ok []) ∧
    (∀ parts, pyGet m "content" = some (.arr parts) →
      (∀ p ∈ parts, wfPart p = true) →
      extract_user_images chat = .ok (parts.filterMap claimedImagePart)) ∧
    (∀ s, pyGet m "content" = some (.str s) →
      ∀ host apiBase p2, host.last_user_prompt chat = some p2 → p2 ≠ "" →
        ∃ hd pl, generator_chat host apiBase chat =
          .ok (.jsonPost (apiBase ++ "/images/generations") hd pl)) := by
  subst hchat
  subst hm
  have hskip := userImagesLoop_skip post.reverse ((Json.obj mfs) :: pre.reverse)
    (fun x hx => hpost x (List.mem_reverse.mp hx))
  have hloop : userImagesLoop ((Json.obj mfs) :: pre.reverse) =
      lastUserImagesSpec (.obj mfs) := by
    cases hc : pyGet (.obj mfs) "content" with
    | none =>
      simp [userImagesLoop, pyGetE, hrole, exceptBind_ok, lastUserImagesSpec, hc]
    | some cv =>
      cases cv <;>
        simp [userImagesLoop, pyGetE, hrole, exceptBind_ok, lastUserImagesSpec, hc]
  have hmain : extract_user_images (.obj cfs) = lastUserImagesSpec (.obj mfs) := by
    have hrev : (pre ++ Json.obj mfs :: post).reverse =
        post.reverse ++ (Json.obj mfs :: pre.reverse) := by
      simp
    calc extract_user_images (.obj cfs)
        = userImagesLoop ((pre ++ Json.obj mfs :: post).reverse) := by
          simp [extract_user_images, pyGetE, hmsgs, exceptBind_ok, pyReversed]
      _ = userImagesLoop (post.reverse ++ (Json.obj mfs :: pre.reverse)) := by
          rw [hrev]
      _ = userImagesLoop ((Json.obj mfs) :: pre.reverse) := hskip
      _ = lastUserImagesSpec (.obj mfs) := hloop
  refine ⟨hmain, ?_, ?_, ?_⟩
  · intro hnl
    rw [hmain]
    unfold lastUserImagesSpec
    cases hc : pyGet (.obj mfs) "content" with
    | none => rfl
    | some cv =>
      cases cv with
      | arr parts => exact absurd hc (hnl parts)
      | null => rfl
      | bool b => rfl
      | num n => rfl
      | str s => rfl
      | obj fs2 => rfl
  · intro parts hc hwf
    rw [hmain]
    simp [lastUserImagesSpec, hc]
    exact collectParts_filterMap parts hwf
  · intro s hc host apiBase p2 hp2 hp2ne
    have hextr : extract_user_images (.obj cfs) = .ok [] := by
      rw [hmain]; simp [lastUserImagesSpec, hc]
    have hreq : requirePrompt host (.obj cfs) = .ok p2 := by
      simp [requirePrompt, hp2, hp2ne]
    refine ⟨host.get_headers (.obj cfs),
      .obj [("model", (pyGet (.obj cfs) "model").getD (.str "")),
            ("prompt", .str p2),
            ("n", pyGetD (.obj cfs) "n" (.num 1)),
            ("response_format", .str "b64_json"),
            ("aspect_ratio", .str (aspectRatioOf host (.obj cfs)))], ?_⟩
    simp [generator_chat, pyGetE, exceptBind_ok, hreq, hextr, chatGenerate]

/-- C10, witness: a one-message chat whose user message has plain-string
content yields no images and is routed to the generate endpoint. -/
theorem c10_witness :
    extract_user_images
        (.obj [("model", .str "mock-image"),
               ("messages", .arr [.obj [("role", .str "user"), ("content", .str "a cat")]])]) =
      lastUserImagesSpec (.obj [("role", .str "user"), ("content", .str "a cat")]) ∧
    ∃ hd pl, generator_chat (mkHost (some "a cat")) "https://x/v1"
        (.obj [("model", .str "mock-image"),
               ("messages", .arr [.obj [("role", .str "user"), ("content", .str "a cat")]])]) =
      .ok (.jsonPost ("https://x/v1" ++ "/images/generations") hd pl) := by
  have h := c10_extract_user_images_last_user
    (.obj [("model", .str "mock-image"),
           ("messages", .arr [.obj [("role", .str "user"), ("content", .str "a cat")]])])
    _ rfl [] [] _ _ rfl rfl rfl (by simp)
  exact ⟨h.1, h.2.2.2 "a cat" rfl (mkHost (some "a cat")) "https://x/v1" "a cat" rfl
    (by decide)⟩

theorem pyGet_any (fs : List (String × Json)) (k : String) :
    (fs.any (fun kv => kv.1 == k)) = (pyGet (.obj fs) k).isSome := by
  induction fs with
  | nil => rfl
  | cons kv fs ih =>
    by_cases h : (kv.1 == k) = true
    · simp [pyGet, List.find?, h]
    · have hh : (kv.1 == k) = false := by simpa using h
      simp only [List.any_cons, hh, Bool.false_or]
      rw [ih]
      simp [pyGet, List.find?, hh]

/-- **C4**: under `to_response`, a response whose `data` field is present but
an empty list fails with exactly the same fatal no-data `RuntimeError` as a
response whose `data` field is missing: a well-formed success body with zero
images is an error, never an empty image list.  The result is an error for
every host, so nothing is cached and no response shape is produced. -/
theorem c4_empty_data_is_no_data (host : Host) (resp chat : Json)
    (rfs : List (String × Json)) (hresp : resp = .obj rfs)
    (hnoerr : rfs.any (fun kv => kv.1 == "error") = false)
    (hdata : pyGet resp "data" = some (.arr []) ∨ pyGet resp "data" = none) :
    to_response host resp chat = .error (.runtimeError noDataMsg) := by
  subst hresp
  rcases hdata with h | h <;>
    simp [to_response, pyContains, hnoerr, pyGetE, exceptBind_ok, h, Json.truthy]

/-- C4, witness: `{"data": []}` and `{}` hit the identical no-data failure. -/
theorem c4_witness :
    to_response (mkHost none) (.obj [("data", .arr [])]) (.obj []) =
      .error (.runtimeError noDataMsg) ∧
    to_response (mkHost none) (.obj []) (.obj []) =
      .error (.runtimeError noDataMsg) :=
  ⟨c4_empty_data_is_no_data (mkHost none) _ _ _ rfl rfl (Or.inl rfl),
   c4_empty_data_is_no_data (mkHost none) _ _ _ rfl rfl (Or.inr rfl)⟩

/-- C3, counterexample: on a 2xx response whose body parses to
`{"error": "boom"}` — a top-level `error` field that is present but not an
object — the handler raises `AttributeError` (from
`response["error"].get(...)` on a string), not a failure carrying the
error's message `"boom"`. -/
theorem c3_counterexample :
    handle_response (mkHost none)
        ⟨200, "\x7b\"error\": \"boom\"\x7d", some (.obj [("error", .str "boom")])⟩
        (.obj []) =
      .error .attributeError :=
  rfl

/-- **C3** (amended): on every response with status < 400 whose body parses
as a JSON object, the handler raises a `RuntimeError` carrying the error's
message whenever a top-level `error` field is present *with an object
value* (the object's `message` field, else the `str()` of the error
object), and raises the fatal no-data `RuntimeError` whenever `error` is
absent and `data` is missing; both outcomes are errors for every host, so
no image is cached and no result is returned.  (The original claim fails
when the `error` value is not an object: the handler then raises
`AttributeError` instead of a failure carrying the error's message.) -/
theorem c3_two_xx_error_and_no_data (host : Host) (st : Nat) (txt : String)
    (j : Json) (rfs : List (String × Json)) (hj : j = .obj rfs)
    (chat : Json) (cfs : List (String × Json)) (hchat : chat = .obj cfs)
    (hstatus : st < 400) :
    (∀ e efs, pyGet j "error" = some e → e = .obj efs →
      handle_response host ⟨st, txt, some j⟩ chat =
        .error (.runtimeError (pyStr (pyGetD e "message" (.str (pyStr e)))))) ∧
    (pyGet j "error" = none → pyGet j "data" = none →
      handle_response host ⟨st, txt, some j⟩ chat =
        .error (.runtimeError noDataMsg)) := by
  subst hj; subst hchat
  have h401 : (st == 401) = false := by
    simp only [beq_eq_false_iff_ne, ne_eq]
    omega
  have h404 : (st == 404) = false := by
    simp only [beq_eq_false_iff_ne, ne_eq]
    omega
  have hge : ¬ st ≥ 400 := by omega
  constructor
  · intro e efs herr hefs
    subst hefs
    have hmem : (rfs.any (fun kv => kv.1 == "error")) = true := by
      rw [pyGet_any, herr]
      rfl
    simp [handle_response, pyGetE, exceptBind_ok, h401, h404, hge,
      to_response, pyContains, hmem, pyIndex, herr]
  · intro herr hdat
    have hmem : (rfs.any (fun kv => kv.1 == "error")) = false := by
      rw [pyGet_any, herr]
      rfl
    simp [handle_response, pyGetE, exceptBind_ok, h401, h404, hge,
      to_response, pyContains, hmem, pyIndex, hdat, Json.truthy]

/-- C3, witness: a 200 body `{"error": {"message": "boom"}}` raises a
`RuntimeError` carrying `"boom"`. -/
theorem c3_witness :
    handle_response (mkHost none)
        ⟨200, "e", some (.obj [("error", .obj [("message", .str "boom")])])⟩
        (.obj []) =
      .error (.runtimeError "boom") :=
  (c3_two_xx_error_and_no_data (mkHost none) 200 "e"
      (.obj [("error", .obj [("message", .str "boom")])]) _ rfl
      (.obj []) [] rfl (by omega)).1
    (.obj [("message", .str "boom")]) [("message", .str "boom")] rfl rfl

/-- The 401 message raised by `_handle_response`. -/
def unauthorizedMsg : String :=
  "Unauthorized: Invalid API key. Check LUMENFALL_API_KEY environment variable."

/-- C5, counterexample: a 500 response whose body is valid JSON but not an
object (here `[]`) makes the generic branch raise `AttributeError` (from
`err.get("error", ...)` on a list, which the `except (ValueError, KeyError)`
clause does not catch) instead of the claimed generic API failure carrying
the raw body text. -/
theorem c5_counterexample :
    handle_response (mkHost none) ⟨500, "[]", some (.arr [])⟩
        (.obj [("model", .str "mock-image")]) =
      .error .attributeError :=
  rfl

/-- **C5** (amended): 401 raises the authentication `PermissionError` whose
message mentions the API key and the `LUMENFALL_API_KEY` environment
variable; 404 raises the unknown-model `ValueError` naming the requested
model; any other status ≥ 400 raises the generic
`RuntimeError("API error ({status}): {msg}")` where `msg` is the provider's
`error.message` when the body parses as a JSON *object* whose `error`
member (defaulting to `{}`) is an object, and the raw body text when the
body does not parse as JSON.  (The original claim's "raw body text
otherwise" fails when the body parses to non-object JSON: the handler then
raises `AttributeError`.) -/
theorem c5_handle_response_status_dispatch (host : Host) (st : Nat) (txt : String)
    (jo : Option Json) (chat : Json) (cfs : List (String × Json))
    (hchat : chat = .obj cfs) :
    (st = 401 →
      handle_response host ⟨st, txt, jo⟩ chat =
        .error (.permissionError unauthorizedMsg) ∧
      strIn unauthorizedMsg "API key" = true ∧
      strIn unauthorizedMsg "LUMENFALL_API_KEY" = true) ∧
    (st = 404 →
      handle_response host ⟨st, txt, jo⟩ chat =
        .error (.valueError ("Model not found: " ++
          pyStr (pyGetD chat "model" (.str ""))))) ∧
    (st ≥ 400 → st ≠ 401 → st ≠ 404 →
      (∀ jfs efs, jo = some (.obj jfs) →
        pyGetD (.obj jfs) "error" (.obj []) = .obj efs →
        handle_response host ⟨st, txt, jo⟩ chat =
          .error (.runtimeError ("API error (" ++ toString st ++ "): " ++
            pyStr (pyGetD (.obj efs) "message" (.str txt))))) ∧
      (jo = none →
        handle_response host ⟨st, txt, jo⟩ chat =
          .error (.runtimeError ("API error (" ++ toString st ++ "): " ++ txt)))) := by
  subst hchat
  refine ⟨?_, ?_, ?_⟩
  · intro h
    subst h
    exact ⟨by simp [handle_response, pyGetE, exceptBind_ok, unauthorizedMsg], rfl, rfl⟩
  · intro h
    subst h
    simp [handle_response, pyGetE, exceptBind_ok, pyGetD]
  · intro hge h401 h404
    have hb401 : (st == 401) = false := by
      simp only [beq_eq_false_iff_ne, ne_eq]
      exact h401
    have hb404 : (st == 404) = false := by
      simp only [beq_eq_false_iff_ne, ne_eq]
      exact h404
    constructor
    · intro jfs efs hjo hefs
      subst hjo
      simp [handle_response, pyGetE, exceptBind_ok, hb401, hb404, hge, hefs]
    · intro hjo
      subst hjo
      simp [handle_response, pyGetE, exceptBind_ok, hb401, hb404, hge]

/-- C5, witness: the three status branches evaluated concretely — 401, a
404 naming the model `mock-image`, and a 503 with a non-JSON body carrying
the raw text. -/
theorem c5_witness :
    handle_response (mkHost none) ⟨401, "x", none⟩ (.obj []) =
      .error (.permissionError unauthorizedMsg) ∧
    handle_response (mkHost none) ⟨404, "x", none⟩ (.obj [("model", .str "mock-image")]) =
      .error (.valueError "Model not found: mock-image") ∧
    handle_response (mkHost none) ⟨503, "upstream down", none⟩ (.obj []) =
      .error (.runtimeError "API error (503): upstream down") := by
  refine ⟨((c5_handle_response_status_dispatch (mkHost none) 401 "x" none
      (.obj []) [] rfl).1 rfl).1, ?_, ?_⟩
  · exact (c5_handle_response_status_dispatch (mkHost none) 404 "x" none
      (.obj [("model", .str "mock-image")]) _ rfl).2.1 rfl
  · exact ((c5_handle_response_status_dispatch (mkHost none) 503 "upstream down" none
      (.obj []) [] rfl).2.2 (by omega) (by omega) (by omega)).2 rfl

/-- Does the secondary-GET path of one item yield non-empty bytes: a truthy
string `url` whose download answers 200 with a non-empty body? -/
def urlYields (host : Host) (item : Json) : Bool :=
  match pyGet item "url" with
  | some v =>
    if v.truthy then
      match v with
      | .str u => (host.download u).status == 200 && !(host.download u).body.isEmpty
      | _ => false
    else false
  | none => false

/-- Does one item of `data` yield non-empty image bytes: a truthy
`b64_json` string decoding to non-empty bytes, or — when `b64_json` is
falsy or absent — a url that yields (`urlYields`)? -/
def itemYields (host : Host) (item : Json) : Bool :=
  match item with
  | .obj _ =>
    match pyGet item "b64_json" with
    | some v =>
      if v.truthy then
        match v with
        | .str s => (match b64decode s with | some bs => !bs.isEmpty | none => false)
        | _ => false
      else urlYields host item
    | none => urlYields host item
  | _ => false

/-- Does one item reach the per-index "No image data" failure: both sources
falsy/absent, a truthy `b64_json` decoding to empty bytes, or a 200
download with an empty body? -/
def urlNoBytes (host : Host) (item : Json) : Bool :=
  match pyGet item "url" with
  | some v =>
    if v.truthy then
      match v with
      | .str u => (host.download u).status == 200 && (host.download u).body.isEmpty
      | _ => false
    else true
  | none => true

/-- The first half of `urlNoBytes` lifted over the `b64_json` dispatch. -/
def itemNoBytes (host : Host) (item : Json) : Bool :=
  match pyGet item "b64_json" with
  | some v =>
    if v.truthy then
      match v with
      | .str s => (match b64decode s with | some bs => bs.isEmpty | none => false)
      | _ => false
    else urlNoBytes host item
  | none => urlNoBytes host item

/-- The bytes and extension the claim promises for the url path: the
downloaded body, with extension inferred from the download's MIME type. -/
def claimedUrlImage (host : Host) (item : Json) : List Nat × String :=
  match pyGet item "url" with
  | some (.str u) =>
    ((host.download u).body, downloadExt (host.download u).contentType)
  | _ => ([], "png")

/-- The bytes and extension the claim promises for one item: base64-decoded
`b64_json` (extension `.png`) when that field is present and truthy, else
the downloaded url image. -/
def claimedItemImage (host : Host) (item : Json) : List Nat × String :=
  match pyGet item "b64_json" with
  | some v =>
    if v.truthy then
      (match v with
       | .str s => ((b64decode s).getD [], "png")
       | _ => ([], "png"))
    else claimedUrlImage host item
  | none => claimedUrlImage host item

/-- The image entry the claim promises for the item at index `i`: its bytes
handed to the host's cache writer under the `{model}-{i}.{ext}` filename,
wrapped as an `image_url` part. -/
def claimedImageEntry (host : Host) (chat : Json) (i : Nat) (item : Json) : Json :=
  let bi := claimedItemImage host item
  .obj [("type", .str "image_url"),
        ("image_url", .obj [("url", .str (host.save_image_to_cache bi.1
          (pyStr (pyGetD chat "model" (.str "image")) ++ "-" ++ toString i ++ "." ++ bi.2)
          (host.to_file_info chat)))])]

/-- The image entries the claim promises for the items starting at index
`i`, one per item, in input order. -/
def claimedImages (host : Host) (chat : Json) : Nat → List Json → List Json
  | _, [] => []
  | i, it :: rest =>
    claimedImageEntry host chat i it :: claimedImages host chat (i + 1) rest

theorem claimedImages_length (host : Host) (chat : Json) (items : List Json) :
    ∀ i, (claimedImages host chat i items).length = items.length := by
  induction items with
  | nil => intro i; rfl
  | cons it rest ih => intro i; simp [claimedImages, ih]

theorem exceptMap_eq_bind {α β : Type} (f : α → β) (x : Except PyErr α) :
    (f <$> x) = (x >>= fun a => Except.ok (f a)) := by
  cases x <;> rfl

theorem toResponseLoop_step_ok (host : Host) (cfs : List (String × Json))
    (i : Nat) (it : Json) (rest : List Json) (hy : itemYields host it = true) :
    toResponseLoop host (.obj cfs) i (it :: rest) =
      toResponseLoop host (.obj cfs) (i + 1) rest >>= fun tl =>
        .ok (claimedImageEntry host (.obj cfs) i it :: tl) := by
  cases it with
  | null => simp [itemYields] at hy
  | bool b => simp [itemYields] at hy
  | num n => simp [itemYields] at hy
  | str s => simp [itemYields] at hy
  | arr xs => simp [itemYields] at hy
  | obj ifs =>
    cases hb : pyGet (.obj ifs) "b64_json" with
    | some bv =>
      by_cases hv : bv.truthy = true
      · cases bv with
        | str s =>
          cases hdec : b64decode s with
          | none => simp [itemYields, hb, hv, hdec] at hy
          | some bs =>
            have hbs : bs.isEmpty = false := by
              simpa [itemYields, hb, hv, hdec] using hy
            have hbs2 : bs ≠ [] := fun h => by simp [h] at hbs
            simp [toResponseLoop, pyGetE, exceptBind_ok, hb, hv, hdec, hbs2,
              exceptMap_eq_bind, claimedImageEntry, claimedItemImage, pyGetD]
        | null => simp [itemYields, hb, hv] at hy
        | bool b => simp [itemYields, hb, hv] at hy
        | num n => simp [itemYields, hb, hv] at hy
        | arr xs => simp [itemYields, hb, hv] at hy
        | obj fs2 => simp [itemYields, hb, hv] at hy
      · have hv2 : bv.truthy = false := by simpa using hv
        have hurl : urlYields host (.obj ifs) = true := by
          simpa [itemYields, hb, hv2] using hy
        cases hu : pyGet (.obj ifs) "url" with
        | none => simp [urlYields, hu] at hurl
        | some uv =>
          by_cases huv : uv.truthy = true
          · cases uv with
            | str u =>
              have hok := hurl
              simp only [urlYields, hu, huv, if_true, beq_iff_eq,
                Bool.and_eq_true, Bool.not_eq_true', List.isEmpty_eq_false,
                ne_eq] at hok
              simp [toResponseLoop, pyGetE, exceptBind_ok, hb, hv2, hu, huv,
                hok.1, hok.2, exceptMap_eq_bind, claimedImageEntry,
                claimedItemImage, claimedUrlImage, pyGetD]
            | null => simp [urlYields, hu, huv] at hurl
            | bool b => simp [urlYields, hu, huv] at hurl
            | num n => simp [urlYields, hu, huv] at hurl
            | arr xs => simp [urlYields, hu, huv] at hurl
            | obj fs2 => simp [urlYields, hu, huv] at hurl
          · have huv2 : uv.truthy = false := by simpa using huv
            simp [urlYields, hu, huv2] at hurl
    | none =>
      have hurl : urlYields host (.obj ifs) = true := by
        simpa [itemYields, hb] using hy
      cases hu : pyGet (.obj ifs) "url" with
      | none => simp [urlYields, hu] at hurl
      | some uv =>
        by_cases huv : uv.truthy = true
        · cases uv with
          | str u =>
            have hok := hurl
            simp only [urlYields, hu, huv, if_true, beq_iff_eq,
              Bool.and_eq_true, Bool.not_eq_true', List.isEmpty_eq_false,
              ne_eq] at hok
            simp [toResponseLoop, pyGetE, exceptBind_ok, hb, hu, huv,
              hok.1, hok.2, exceptMap_eq_bind, claimedImageEntry,
              claimedItemImage, claimedUrlImage, pyGetD]
          | null => simp [urlYields, hu, huv] at hurl
          | bool b => simp [urlYields, hu, huv] at hurl
          | num n => simp [urlYields, hu, huv] at hurl
          | arr xs => simp [urlYields, hu, huv] at hurl
          | obj fs2 => simp [urlYields, hu, huv] at hurl
        · have huv2 : uv.truthy = false := by simpa using huv
          simp [urlYields, hu, huv2] at hurl

theorem toResponseLoop_step_raise (host : Host) (cfs : List (String × Json))
    (i : Nat) (ifs : List (String × Json)) (rest : List Json)
    (hn : itemNoBytes host (.obj ifs) = true) :
    toResponseLoop host (.obj cfs) i (.obj ifs :: rest) =
      .error (.runtimeError ("No image data in response item " ++ toString i)) := by
  cases hb : pyGet (.obj ifs) "b64_json" with
  | some bv =>
    by_cases hv : bv.truthy = true
    · cases bv with
      | str s =>
        cases hdec : b64decode s with
        | none => simp [itemNoBytes, hb, hv, hdec] at hn
        | some bs =>
          have hbs : bs = [] := by
            have := hn
            simp only [itemNoBytes, hb, hv, if_true, hdec, List.isEmpty_iff] at this
            exact this
          subst hbs
          simp [toResponseLoop, pyGetE, exceptBind_ok, hb, hv, hdec]
      | null => simp [itemNoBytes, hb, hv] at hn
      | bool b => simp [itemNoBytes, hb, hv] at hn
      | num n => simp [itemNoBytes, hb, hv] at hn
      | arr xs => simp [itemNoBytes, hb, hv] at hn
      | obj fs2 => simp [itemNoBytes, hb, hv] at hn
    · have hv2 : bv.truthy = false := by simpa using hv
      have hurl : urlNoBytes host (.obj ifs) = true := by
        simpa [itemNoBytes, hb, hv2] using hn
      cases hu : pyGet (.obj ifs) "url" with
      | none => simp [toResponseLoop, pyGetE, exceptBind_ok, hb, hv2, hu]
      | some uv =>
        by_cases huv : uv.truthy = true
        · cases uv with
          | str u =>
            have hok := hurl
            simp only [urlNoBytes, hu, huv, if_true, beq_iff_eq,
              Bool.and_eq_true, List.isEmpty_iff] at hok
            simp [toResponseLoop, pyGetE, exceptBind_ok, hb, hv2, hu, huv,
              hok.1, hok.2]
          | null => simp [urlNoBytes, hu, huv] at hurl
          | bool b => simp [urlNoBytes, hu, huv] at hurl
          | num n => simp [urlNoBytes, hu, huv] at hurl
          | arr xs => simp [urlNoBytes, hu, huv] at hurl
          | obj fs2 => simp [urlNoBytes, hu, huv] at hurl
        · have huv2 : uv.truthy = false := by simpa using huv
          simp [toResponseLoop, pyGetE, exceptBind_ok, hb, hv2, hu, huv2]
  | none =>
    have hurl : urlNoBytes host (.obj ifs) = true := by
      simpa [itemNoBytes, hb] using hn
    cases hu : pyGet (.obj ifs) "url" with
    | none => simp [toResponseLoop, pyGetE, exceptBind_ok, hb, hu]
    | some uv =>
      by_cases huv : uv.truthy = true
      · cases uv with
        | str u =>
          have hok := hurl
          simp only [urlNoBytes, hu, huv, if_true, beq_iff_eq,
            Bool.and_eq_true, List.isEmpty_iff] at hok
          simp [toResponseLoop, pyGetE, exceptBind_ok, hb, hu, huv,
            hok.1, hok.2]
        | null => simp [urlNoBytes, hu, huv] at hurl
        | bool b => simp [urlNoBytes, hu, huv] at hurl
        | num n => simp [urlNoBytes, hu, huv] at hurl
        | arr xs => simp [urlNoBytes, hu, huv] at hurl
        | obj fs2 => simp [urlNoBytes, hu, huv] at hurl
      · have huv2 : uv.truthy = false := by simpa using huv
        simp [toResponseLoop, pyGetE, exceptBind_ok, hb, hu, huv2]

theorem toResponseLoop_claimed (host : Host) (cfs : List (String × Json))
    (items : List Json) :
    ∀ i, (∀ it ∈ items, itemYields host it = true) →
      toResponseLoop host (.obj cfs) i items =
        .ok (claimedImages host (.obj cfs) i items) := by
  induction items with
  | nil => intro i _; rfl
  | cons it rest ih =>
    intro i hall
    rw [toResponseLoop_step_ok host cfs i it rest (hall it (by simp)),
      ih (i + 1) (fun q hq => hall q (by simp [hq]))]
    simp [claimedImages, exceptBind_ok]

theorem toResponseLoop_first_failure (host : Host) (cfs : List (String × Json))
    (goods : List Json) :
    ∀ i bad bfs more, bad = .obj bfs →
      (∀ g ∈ goods, itemYields host g = true) →
      itemNoBytes host bad = true →
      toResponseLoop host (.obj cfs) i (goods ++ bad :: more) =
        .error (.runtimeError
          ("No image data in response item " ++ toString (i + goods.length))) := by
  induction goods with
  | nil =>
    intro i bad bfs more hbad hall hn
    subst hbad
    simpa using toResponseLoop_step_raise host cfs i bfs more hn
  | cons g gs ih =>
    intro i bad bfs more hbad hall hn
    rw [List.cons_append,
      toResponseLoop_step_ok host cfs i g (gs ++ bad :: more) (hall g (by simp)),
      ih (i + 1) bad bfs more hbad (fun q hq => hall q (by simp [hq])) hn]
    have harith : i + 1 + gs.length = i + (gs.length + 1) := by omega
    simp [harith, exceptBind_error]

/-- **C6**: for a 2xx-parsed body with no `error` member and a non-empty
`data` array, `to_response` yields exactly one image entry per array item,
in input order (the entry list has the array's length), each entry carrying
the cache-writer URL for that item's bytes — base64-decoded from a truthy
`b64_json` (extension `.png`), else downloaded from a truthy `url` with the
extension inferred from the download's Content-Type (`jpeg`/`jpg` → `.jpg`,
`webp` → `.webp`, else `.png`) — assembled into the host's
`{choices: [{message: {role, content, images}}]}` shape; and when the first
item that yields no bytes sits after `goods.length` yielding items, the
whole call fails with the fatal `RuntimeError` naming exactly that index. -/
theorem c6_to_response_per_item (host : Host) (resp chat : Json)
    (rfs cfs : List (String × Json)) (hresp : resp = .obj rfs)
    (hchat : chat = .obj cfs)
    (hnoerr : rfs.any (fun kv => kv.1 == "error") = false)
    (items : List Json) (hdata : pyGet resp "data" = some (.arr items))
    (hne : items ≠ []) :
    ((∀ it ∈ items, itemYields host it = true) →
      to_response host resp chat =
        .ok (.obj [("choices", .arr
          [.obj [("message", .obj
            [("role", .str "assistant"),
             ("content", host.default_content),
             ("images", .arr (claimedImages host chat 0 items))])]])]) ∧
      (claimedImages host chat 0 items).length = items.length) ∧
    (∀ goods bad bfs more, items = goods ++ bad :: more → bad = .obj bfs →
      (∀ g ∈ goods, itemYields host g = true) → itemNoBytes host bad = true →
      to_response host resp chat =
        .error (.runtimeError
          ("No image data in response item " ++ toString goods.length))) := by
  subst hresp; subst hchat
  constructor
  · intro hall
    refine ⟨?_, claimedImages_length host (.obj cfs) items 0⟩
    have hloop := toResponseLoop_claimed host cfs items 0 hall
    simp [to_response, pyContains, hnoerr, pyGetE, exceptBind_ok, hdata,
      Json.truthy, List.isEmpty_iff, hne, pyIter, hloop]
  · intro goods bad bfs more hsplit hbad hgoods hn
    subst hsplit
    have hloop := toResponseLoop_first_failure host cfs goods 0 bad bfs more
      hbad hgoods hn
    simp only [Nat.zero_add] at hloop
    simp [to_response, pyContains, hnoerr, pyGetE, exceptBind_ok,
      exceptBind_error, hdata, Json.truthy, List.isEmpty_iff, hne, pyIter, hloop]

/-- C6, witness: a two-item `data` array — one inline base64 image, one
url image downloading as JPEG — produces two entries in order with the
`.png` and `.jpg` cache filenames. -/
theorem c6_witness :
    to_response (mkHost none)
        (.obj [("data", .arr
          [.obj [("b64_json", .str "AAAA")],
           .obj [("url", .str "https://img.example/one")]])])
        (.obj [("model", .str "mock-image")]) =
      .ok (.obj [("choices", .arr
        [.obj [("message", .obj
          [("role", .str "assistant"),
           ("content", .str ""),
           ("images", .arr
             [.obj [("type", .str "image_url"),
                    ("image_url", .obj [("url", .str "/~cache/mock-image-0.png")])],
              .obj [("type", .str "image_url"),
                    ("image_url", .obj [("url", .str "/~cache/mock-image-1.jpg")])]])])]])]) ∧
    (claimedImages (mkHost none) (.obj [("model", .str "mock-image")]) 0
      [.obj [("b64_json", .str "AAAA")],
       .obj [("url", .str "https://img.example/one")]]).length = 2 :=
  (c6_to_response_per_item (mkHost none)
    (.obj [("data", .arr
      [.obj [("b64_json", .str "AAAA")],
       .obj [("url", .str "https://img.example/one")]])])
    (.obj [("model", .str "mock-image")])
    [("data", .arr
      [.obj [("b64_json", .str "AAAA")],
       .obj [("url", .str "https://img.example/one")]])]
    [("model", .str "mock-image")]
    rfl rfl rfl
    [.obj [("b64_json", .str "AAAA")],
     .obj [("url", .str "https://img.example/one")]]
    rfl (by simp)).1 (by decide)
